import Mathlib

/-!
Shallow embedding of `fast_align_audio/alignment.py` and verification of the
specified properties of its offset search and alignment pipeline.

Signals are modelled as lists of rationals (exact stand-ins for float32
samples).  The two external collaborators of the module — the native MSE
routine `_fast_align_audio.lib.fast_find_alignment` and the library function
`np.corrcoef` — are passed as explicit function parameters, since their code
is not part of the repository.
-/

namespace FastAlignAudio

/-- Model of the Python strided slice `l[::4]`: every 4th element, starting
at index 0. -/
def every4 (l : List ℚ) : List ℚ :=
  (l.enum.filter (fun p => p.1 % 4 == 0)).map Prod.snd

/-- The half-open integer interval `[lo, hi)` as a list, in increasing order,
modelling the Python `range(lo, hi)`. -/
def intRange (lo hi : ℤ) : List ℤ :=
  (List.range (hi - lo).toNat).map (fun (i : ℕ) => lo + (i : ℤ))

/-- Maximum of a list of rationals (0 for the empty list; the empty case is
never used by the model). -/
def listMax : List ℚ → ℚ
  | [] => 0
  | [x] => x
  | x :: y :: tl => max x (listMax (y :: tl))

/-- Model of `np.argmax`: the index of the first occurrence of the maximum. -/
def argmaxIdx (l : List ℚ) : ℕ :=
  l.findIdx (fun v => decide (v = listMax l))

theorem listMax_mem (x : ℚ) (tl : List ℚ) : listMax (x :: tl) ∈ x :: tl := by
  induction tl generalizing x with
  | nil => simp [listMax]
  | cons y tl2 ih =>
    have h := ih y
    rw [show listMax (x :: y :: tl2) = max x (listMax (y :: tl2)) from rfl]
    rcases le_total x (listMax (y :: tl2)) with hle | hle
    · rw [max_eq_right hle]
      exact List.mem_cons_of_mem _ h
    · rw [max_eq_left hle]
      exact List.mem_cons_self _ _

theorem le_listMax (x : ℚ) (tl : List ℚ) (a : ℚ) (ha : a ∈ x :: tl) :
    a ≤ listMax (x :: tl) := by
  induction tl generalizing x with
  | nil =>
    rw [List.mem_singleton] at ha
    subst ha
    simp [listMax]
  | cons y tl2 ih =>
    rw [show listMax (x :: y :: tl2) = max x (listMax (y :: tl2)) from rfl]
    rcases List.mem_cons.mp ha with rfl | ha2
    · exact le_max_left _ _
    · exact le_trans (ih y ha2) (le_max_right _ _)

theorem argmaxIdx_lt_length {l : List ℚ} (h : l ≠ []) : argmaxIdx l < l.length := by
  cases l with
  | nil => exact absurd rfl h
  | cons x tl =>
    exact List.findIdx_lt_length_of_exists ⟨listMax (x :: tl), listMax_mem x tl, by simp⟩

theorem argmaxIdx_getElem {l : List ℚ} (hw : argmaxIdx l < l.length) :
    l[argmaxIdx l] = listMax l := by
  have hp := @List.findIdx_getElem _ (fun v => decide (v = listMax l)) l hw
  exact of_decide_eq_true hp

theorem getElem_lt_of_lt_argmaxIdx {l : List ℚ} {j : ℕ} (hjl : j < l.length)
    (hj : j < argmaxIdx l) : l[j] < listMax l := by
  have hne : ¬ (decide (l[j] = listMax l) = true) := by
    have hfalse := List.not_of_lt_findIdx (p := fun v => decide (v = listMax l)) hj
    simpa using hfalse
  have hmem : l[j] ∈ l := List.getElem_mem hjl
  have hle : l[j] ≤ listMax l := by
    cases l with
    | nil => simp at hjl
    | cons x tl => exact le_listMax x tl _ hmem
  exact lt_of_le_of_ne hle (by simpa using hne)

theorem argmaxIdx_eq_of_unique {l : List ℚ} {i : ℕ} (hi : i < l.length)
    (hu : ∀ j (hj : j < l.length), j ≠ i → l[j] < l[i]) : argmaxIdx l = i := by
  have hne : l ≠ [] := by
    intro hc
    subst hc
    simp at hi
  have hmax : listMax l = l[i] := by
    have h1 : l[i] ≤ listMax l := by
      cases l with
      | nil => exact absurd rfl hne
      | cons x tl => exact le_listMax x tl _ (List.getElem_mem hi)
    have h2 : listMax l ∈ l := by
      cases l with
      | nil => exact absurd rfl hne
      | cons x tl => exact listMax_mem x tl
    obtain ⟨j, hj, he⟩ := List.mem_iff_getElem.mp h2
    by_cases hji : j = i
    · subst hji
      exact he.symm
    · have hlt := hu j hj hji
      rw [he] at hlt
      exact absurd h1 (not_le_of_lt hlt)
  unfold argmaxIdx
  rw [List.findIdx_eq hi]
  constructor
  · exact decide_eq_true hmax.symm
  · intro j hji
    have hjl : j < l.length := lt_trans hji hi
    have hlt : l[j] < l[i] := hu j hjl (Nat.ne_of_lt hji)
    exact decide_eq_false (by rw [hmax]; exact ne_of_lt hlt)

theorem length_intRange (lo hi : ℤ) : (intRange lo hi).length = (hi - lo).toNat := by
  unfold intRange
  rw [List.length_map, List.length_range]

theorem getElem_intRange (lo hi : ℤ) (j : ℕ) (hj : j < (intRange lo hi).length) :
    (intRange lo hi)[j] = lo + j := by
  unfold intRange
  rw [List.getElem_map, List.getElem_range]

/-- The scan pattern shared by the offset searches: evaluate a score `g` at
every lag of the half-open range `[mn, mx)` in increasing order, take `np.argmax`
of the resulting list (first index achieving the maximum) and add `mn`. -/
def scanOffset (g : ℤ → ℚ) (mn mx : ℤ) : ℤ :=
  (argmaxIdx ((intRange mn mx).map g) : ℤ) + mn

theorem length_scanList (g : ℤ → ℚ) (mn mx : ℤ) :
    ((intRange mn mx).map g).length = (mx - mn).toNat := by
  rw [List.length_map, length_intRange]

theorem getElem_scanList (g : ℤ → ℚ) (mn mx : ℤ) (j : ℕ)
    (hj : j < ((intRange mn mx).map g).length) :
    ((intRange mn mx).map g)[j] = g (mn + j) := by
  rw [List.getElem_map, getElem_intRange]

theorem scanList_ne_nil (g : ℤ → ℚ) {mn mx : ℤ} (h : mn < mx) :
    (intRange mn mx).map g ≠ [] := by
  intro hc
  have hl := length_scanList g mn mx
  rw [hc] at hl
  simp at hl
  omega

theorem scanOffset_mem_range (g : ℤ → ℚ) {mn mx : ℤ} (h : mn < mx) :
    mn ≤ scanOffset g mn mx ∧ scanOffset g mn mx < mx := by
  have harg : argmaxIdx ((intRange mn mx).map g) < (mx - mn).toNat := by
    have := argmaxIdx_lt_length (scanList_ne_nil g h)
    rwa [length_scanList] at this
  unfold scanOffset
  omega

theorem scanOffset_score (g : ℤ → ℚ) {mn mx : ℤ} (h : mn < mx) :
    g (scanOffset g mn mx) = listMax ((intRange mn mx).map g) := by
  have hne := scanList_ne_nil g h
  have harg := argmaxIdx_lt_length hne
  have hval := argmaxIdx_getElem harg
  rw [getElem_scanList] at hval
  have hrw : mn + (argmaxIdx ((intRange mn mx).map g) : ℤ) = scanOffset g mn mx := by
    unfold scanOffset
    omega
  rwa [hrw] at hval

theorem scanOffset_is_max (g : ℤ → ℚ) {mn mx t : ℤ} (h : mn < mx)
    (ht1 : mn ≤ t) (ht2 : t < mx) : g t ≤ g (scanOffset g mn mx) := by
  have hlen := length_scanList g mn mx
  have hj : (t - mn).toNat < ((intRange mn mx).map g).length := by omega
  have hval : ((intRange mn mx).map g)[(t - mn).toNat] = g t := by
    rw [getElem_scanList]
    congr 1
    omega
  have hmem : g t ∈ (intRange mn mx).map g := by
    rw [← hval]
    exact List.getElem_mem hj
  rw [scanOffset_score g h]
  cases hl : (intRange mn mx).map g with
  | nil => exact absurd hl (scanList_ne_nil g h)
  | cons x tl =>
    rw [hl] at hmem
    exact le_listMax x tl _ hmem

theorem scanOffset_first (g : ℤ → ℚ) {mn mx t : ℤ} (h : mn < mx)
    (ht1 : mn ≤ t) (ht2 : t < scanOffset g mn mx) :
    g t < g (scanOffset g mn mx) := by
  have hlen := length_scanList g mn mx
  have hne := scanList_ne_nil g h
  have harg := argmaxIdx_lt_length hne
  have hj : (t - mn).toNat < argmaxIdx ((intRange mn mx).map g) := by
    unfold scanOffset at ht2
    omega
  have hjl : (t - mn).toNat < ((intRange mn mx).map g).length :=
    lt_trans hj harg
  have hlt := getElem_lt_of_lt_argmaxIdx hjl hj
  rw [getElem_scanList] at hlt
  have ht : mn + ((t - mn).toNat : ℤ) = t := by omega
  rw [ht] at hlt
  rwa [scanOffset_score g h]

theorem scanOffset_eq_of_unique (g : ℤ → ℚ) {mn mx i : ℤ} (h1 : mn ≤ i)
    (h2 : i < mx) (hu : ∀ t, mn ≤ t → t < mx → t ≠ i → g t < g i) :
    scanOffset g mn mx = i := by
  have hlen := length_scanList g mn mx
  have hi : (i - mn).toNat < ((intRange mn mx).map g).length := by omega
  have harg : argmaxIdx ((intRange mn mx).map g) = (i - mn).toNat := by
    apply argmaxIdx_eq_of_unique hi
    intro j hj hji
    rw [getElem_scanList, getElem_scanList]
    have hji2 : mn + (j : ℤ) ≠ i := by omega
    have hgi : mn + ((i - mn).toNat : ℤ) = i := by omega
    rw [hgi]
    exact hu (mn + j) (by omega) (by omega) hji2
  unfold scanOffset
  rw [harg]
  omega

/-- Model of `fast_autocorr` (alignment.py lines 8-15).  The library call
`np.corrcoef([x, y])[1, 0]` is the external parameter `corrcoef`.  The Python
slices translate as: `x[::4]` is `every4 x`; for `t < 0`, `x[-t::4]` is
`every4 (x.drop (-t))` and `y[:t:4]` is `every4 (y.take (y.length - (-t)))`;
for `t > 0`, `x[:-t:4]` is `every4 (x.take (x.length - t))` and `y[t::4]` is
`every4 (y.drop t)`. -/
def fast_autocorr (corrcoef : List ℚ → List ℚ → ℚ)
    (original delayed : List ℚ) (t : ℤ) : ℚ :=
  if t = 0 then
    corrcoef (every4 original) (every4 delayed)
  else if t < 0 then
    corrcoef (every4 (original.drop (-t).toNat))
      (every4 (delayed.take (delayed.length - (-t).toNat)))
  else
    corrcoef (every4 (original.take (original.length - t.toNat)))
      (every4 (delayed.drop t.toNat))

/-- Model of the windowing step of `find_best_alignment_offset_with_corrcoef`
(alignment.py lines 26-36): when a lookahead bound is supplied and the first
signal is longer than the bound, both signals are restricted to the slice
`[len div 2, len div 2 + lookahead)`; otherwise they are left unchanged. -/
def corrWindow (original delayed : List ℚ) (lookahead : Option ℤ) :
    List ℚ × List ℚ :=
  match lookahead with
  | some la =>
    if (original.length : ℤ) > la then
      ((original.drop (original.length / 2)).take la.toNat,
       (delayed.drop (original.length / 2)).take la.toNat)
    else (original, delayed)
  | none => (original, delayed)

/-- Model of `find_best_alignment_offset_with_corrcoef` (alignment.py lines
18-47): window the signals, score every lag of `[mn, mx)` with
`fast_autocorr`, and return `np.argmax` of the scores plus `mn`. -/
def find_best_alignment_offset_with_corrcoef (corrcoef : List ℚ → List ℚ → ℚ)
    (original_signal delayed_signal : List ℚ)
    (min_offset_samples max_offset_samples : ℤ)
    (lookahead_samples : Option ℤ) : ℤ :=
  scanOffset
    (fun lag =>
      fast_autocorr corrcoef
        (corrWindow original_signal delayed_signal lookahead_samples).1
        (corrWindow original_signal delayed_signal lookahead_samples).2 lag)
    min_offset_samples max_offset_samples

/-- A NumPy 1-d array as the model sees it: an element type tag, the
C-contiguity flag, and the sample data. -/
structure NpArray where
  dtype : String
  cContiguous : Bool
  data : List ℚ

/-- Modelled from the spec: the scalar mean-squared-error score used by the
native routine `_fast_align_audio.lib.fast_find_alignment`, whose C source is
not under src/.  Spec section 6: the offset applies to the first (delayed)
buffer relative to the second (reference) one, and `lookahead` bounds the
comparison window. -/
def mseScore (delayed reference : List ℚ) (t lookahead : ℤ) : ℚ :=
  let d := if 0 ≤ t then delayed.drop t.toNat else delayed
  let r := if 0 ≤ t then reference else reference.drop (-t).toNat
  let n := min (min d.length r.length) lookahead.toNat
  let pairs := (d.take n).zip (r.take n)
  (pairs.map (fun p => (p.1 - p.2) * (p.1 - p.2))).sum / (n : ℚ)

/-- Modelled from the spec: the native routine
`_fast_align_audio.lib.fast_find_alignment` (C source not under src/).  Spec
section 6: it scans the symmetric bounded range and returns the integer
offset minimizing the mean-squared-error; the scan is modelled as the same
first-best scan pattern as the correlation path, on negated MSE scores. -/
def fastFindAlignmentSpec (delayed reference : List ℚ)
    (max_offset_samples lookahead_samples : ℤ) : ℤ :=
  scanOffset (fun t => -(mseScore delayed reference t lookahead_samples))
    (-max_offset_samples) max_offset_samples

/-- Model of `find_best_alignment_offset` (alignment.py lines 50-96).  The
native routine is the external parameter `fast_find_alignment`; in the model
an assertion failure or a raised ValueError is an `Except.error` carrying the
message.  Note that the `corr` branch passes no lookahead argument to
`find_best_alignment_offset_with_corrcoef` (line 92-94 of the source), so the
inner default `None` is used there. -/
def find_best_alignment_offset
    (fast_find_alignment : List ℚ → List ℚ → ℤ → ℤ → ℤ)
    (corrcoef : List ℚ → List ℚ → ℚ)
    (reference_signal delayed_signal : NpArray)
    (max_offset_samples : ℤ)
    (lookahead_samples : Option ℤ)
    (method : String) : Except String ℤ :=
  if reference_signal.dtype = "float32" ∧ delayed_signal.dtype = "float32" then
    if method = "mse" then
      if reference_signal.cContiguous ∧ delayed_signal.cContiguous then
        .ok (fast_find_alignment delayed_signal.data reference_signal.data
              max_offset_samples
              (lookahead_samples.getD
                ((max reference_signal.data.length delayed_signal.data.length : ℕ) : ℤ)))
      else .error "Arrays must be C-contiguous"
    else if method = "corr" then
      .ok (find_best_alignment_offset_with_corrcoef corrcoef
            reference_signal.data delayed_signal.data
            (-max_offset_samples) max_offset_samples none)
    else .error "Unknown method"
  else .error "Arrays must be float32"

/-- Model of `_align` (alignment.py lines 125-130).  Note the source has no
else branch: an unrecognized mode leaves both signals unchanged. -/
def _align (x y : List ℚ) (off : ℕ) (mode : String) : List ℚ × List ℚ :=
  if mode = "crop" then (x.drop off, y)
  else if mode = "pad" then (x, List.replicate off 0 ++ y)
  else (x, y)

/-- Model of `_fix` (alignment.py lines 133-147). -/
def _fix (x y : List ℚ) (fix_mode : Option String) :
    Except String (List ℚ × List ℚ) :=
  match fix_mode with
  | none => .ok (x, y)
  | some m =>
    if m = "shortest" then
      let min_len := min x.length y.length
      .ok (x.take min_len, y.take min_len)
    else if m = "longest" then
      let max_len := max x.length y.length
      .ok (x ++ List.replicate (max_len - x.length) 0,
           y ++ List.replicate (max_len - y.length) 0)
    else .error ("fix_length=" ++ m ++ " not understood")

/-- The offset dispatch inside `align` (alignment.py lines 114-120): positive
offsets are applied to the pair as given, non-positive ones to the swapped
pair, whose result is un-swapped. -/
def applyAlignOffset (a b : List ℚ) (offset : ℤ) (mode : String) :
    List ℚ × List ℚ :=
  if 0 < offset then
    _align a b offset.toNat mode
  else
    let p := _align b a (-offset).toNat mode
    (p.2, p.1)

/-- Model of `align` (alignment.py lines 99-122).  The source calls
`find_best_alignment_offset(a, b, max_offset, max_lookahead)`, leaving the
`method` argument at its default value `"mse"`. -/
def align (fast_find_alignment : List ℚ → List ℚ → ℤ → ℤ → ℤ)
    (corrcoef : List ℚ → List ℚ → ℚ) (a b : NpArray) (max_offset : ℤ)
    (max_lookahead : Option ℤ) (align_mode : String)
    (fix_length : Option String) : Except String (List ℚ × List ℚ) := do
  let offset ← find_best_alignment_offset fast_find_alignment corrcoef a b
    max_offset max_lookahead "mse"
  let p := applyAlignOffset a.data b.data offset align_mode
  _fix p.1 p.2 fix_length

/-- A simple symmetric scorer used to instantiate the abstract `np.corrcoef`
parameter on concrete inputs: it scores 1 when the two slices are the given
pair (in either order) and 0 otherwise. -/
def pairScore (s1 s2 : List ℚ) (x y : List ℚ) : ℚ :=
  if (x = s1 ∧ y = s2) ∨ (x = s2 ∧ y = s1) then 1 else 0

theorem pairScore_symm (s1 s2 : List ℚ) :
    ∀ x y, pairScore s1 s2 x y = pairScore s1 s2 y x := by
  intro x y
  unfold pairScore
  by_cases h : (x = s1 ∧ y = s2) ∨ (x = s2 ∧ y = s1)
  · rw [if_pos h, if_pos (by tauto)]
  · rw [if_neg h, if_neg (by tauto)]

/-- Claim C3: for every pair of signals and every winning offset `k`, a
positive `k` makes crop mode drop the first `k` samples of the first signal
(second untouched) and pad mode prepend `k` zeros to the second signal
(growing it by `k`); a non-positive `k` applies the symmetric transformation
with the roles swapped, un-swapping the pair before returning. -/
theorem claim3_crop_pad_semantics (a b : List ℚ) (k : ℤ) :
    (0 < k →
      applyAlignOffset a b k "crop" = (a.drop k.toNat, b)
      ∧ applyAlignOffset a b k "pad" = (a, List.replicate k.toNat 0 ++ b)
      ∧ (List.replicate k.toNat 0 ++ b).length = b.length + k.toNat)
    ∧ (k ≤ 0 →
      applyAlignOffset a b k "crop" = (a, b.drop (-k).toNat)
      ∧ applyAlignOffset a b k "pad" = (List.replicate (-k).toNat 0 ++ a, b)) := by
  constructor
  · intro hk
    refine ⟨?_, ?_, ?_⟩
    · unfold applyAlignOffset
      rw [if_pos hk]
      unfold _align
      rw [if_pos rfl]
    · unfold applyAlignOffset
      rw [if_pos hk]
      unfold _align
      rw [if_neg (by decide : ¬("pad" = "crop")), if_pos rfl]
    · rw [List.length_append, List.length_replicate]
      omega
  · intro hk
    have hnk : ¬(0 < k) := not_lt.mpr hk
    constructor
    · unfold applyAlignOffset
      rw [if_neg hnk]
      unfold _align
      rw [if_pos rfl]
    · unfold applyAlignOffset
      rw [if_neg hnk]
      unfold _align
      rw [if_neg (by decide : ¬("pad" = "crop")), if_pos rfl]

theorem claim3_witness :
    ((0:ℤ) < 2)
    ∧ applyAlignOffset [1, 2, 3] [4, 5] 2 "crop" = ([3], [4, 5])
    ∧ applyAlignOffset [1, 2, 3] [4, 5] 2 "pad" = ([1, 2, 3], [0, 0, 4, 5])
    ∧ ((-1:ℤ) ≤ 0)
    ∧ applyAlignOffset [1, 2, 3] [4, 5] (-1) "crop" = ([1, 2, 3], [5]) :=
  ⟨by decide,
   ((claim3_crop_pad_semantics [1, 2, 3] [4, 5] 2).1 (by decide)).1,
   ((claim3_crop_pad_semantics [1, 2, 3] [4, 5] 2).1 (by decide)).2.1,
   by decide,
   ((claim3_crop_pad_semantics [1, 2, 3] [4, 5] (-1)).2 (by decide)).1⟩

/-- Claim C6: the length reconciler returns both signals unchanged for
`None`, truncates both to the minimum length (keeping leading samples) for
`"shortest"`, and right-pads with zeros to the maximum length for
`"longest"`. -/
theorem claim6_fix_length_modes (x y : List ℚ) :
    _fix x y none = .ok (x, y)
    ∧ (_fix x y (some "shortest")
         = .ok (x.take (min x.length y.length), y.take (min x.length y.length))
       ∧ (x.take (min x.length y.length)).length = min x.length y.length
       ∧ (y.take (min x.length y.length)).length = min x.length y.length)
    ∧ (_fix x y (some "longest")
         = .ok (x ++ List.replicate (max x.length y.length - x.length) 0,
                y ++ List.replicate (max x.length y.length - y.length) 0)
       ∧ (x ++ List.replicate (max x.length y.length - x.length) 0).length
           = max x.length y.length
       ∧ (y ++ List.replicate (max x.length y.length - y.length) 0).length
           = max x.length y.length) := by
  refine ⟨rfl, ⟨rfl, ?_, ?_⟩, ⟨rfl, ?_, ?_⟩⟩
  · rw [List.length_take]
    omega
  · rw [List.length_take]
    omega
  · rw [List.length_append, List.length_replicate]
    omega
  · rw [List.length_append, List.length_replicate]
    omega

/-- Claim C7: when the winning offset is 0, applying `align` with
`fix_length = None` is an identity in both crop and pad modes. -/
theorem claim7_zero_offset_identity
    (f : List ℚ → List ℚ → ℤ → ℤ → ℤ) (c : List ℚ → List ℚ → ℚ)
    (A B : NpArray) (M : ℤ) (la : Option ℤ) (mode : String)
    (hmode : mode = "crop" ∨ mode = "pad")
    (h0 : find_best_alignment_offset f c A B M la "mse" = .ok 0) :
    align f c A B M la mode none = .ok (A.data, B.data) := by
  rcases hmode with rfl | rfl
  · unfold align
    rw [h0]
    rfl
  · unfold align
    rw [h0]
    rfl

theorem claim7_witness :
    ("crop" = "crop" ∨ "crop" = "pad")
    ∧ find_best_alignment_offset (fun _ _ _ _ => 0) (fun _ _ => (0:ℚ))
        ⟨"float32", true, [1, 2]⟩ ⟨"float32", true, [3, 4]⟩ 1 none "mse" = .ok 0
    ∧ align (fun _ _ _ _ => 0) (fun _ _ => (0:ℚ))
        ⟨"float32", true, [1, 2]⟩ ⟨"float32", true, [3, 4]⟩ 1 none "crop" none
        = .ok ([1, 2], [3, 4]) :=
  ⟨Or.inl rfl, rfl,
   claim7_zero_offset_identity (fun _ _ _ _ => 0) (fun _ _ => (0:ℚ))
     ⟨"float32", true, [1, 2]⟩ ⟨"float32", true, [3, 4]⟩ 1 none "crop"
     (Or.inl rfl) rfl⟩

/-- Claim C2 counterexample: a call of `align` with the unrecognized
`align_mode` value `"bogus"` does not fail; it returns a result pair (the
signals unchanged), because `_align` has no else branch. -/
theorem claim2_counterexample :
    align (fun _ _ _ _ => 0) (fun _ _ => (0:ℚ)) ⟨"float32", true, [1, 2]⟩
      ⟨"float32", true, [3, 4]⟩ 1 none "bogus" none = .ok ([1, 2], [3, 4]) :=
  rfl

/-- Claim C2 amended: an unrecognized `method` fails with the configuration
error "Unknown method" (which does not name the invalid value); an
unrecognized `fix_length` fails with a configuration error naming the invalid
value; an unrecognized `align_mode` does not fail at all — `_align` silently
leaves both signals unchanged. -/
theorem claim2_config_error_behavior
    (f : List ℚ → List ℚ → ℤ → ℤ → ℤ) (c : List ℚ → List ℚ → ℚ)
    (A B : NpArray) (M : ℤ) (la : Option ℤ) (method mode fm : String)
    (x y : List ℚ) (k : ℕ) :
    (A.dtype = "float32" → B.dtype = "float32" → method ≠ "mse" → method ≠ "corr" →
      find_best_alignment_offset f c A B M la method = .error "Unknown method")
    ∧ (fm ≠ "shortest" → fm ≠ "longest" →
      _fix x y (some fm) = .error ("fix_length=" ++ fm ++ " not understood"))
    ∧ (mode ≠ "crop" → mode ≠ "pad" → _align x y k mode = (x, y)) := by
  refine ⟨fun h1 h2 h3 h4 => ?_, fun h1 h2 => ?_, fun h1 h2 => ?_⟩
  · unfold find_best_alignment_offset
    rw [if_pos ⟨h1, h2⟩, if_neg h3, if_neg h4]
  · simp only [_fix]
    rw [if_neg h1, if_neg h2]
  · unfold _align
    rw [if_neg h1, if_neg h2]

theorem claim2_witness :
    (("float32" : String) = "float32") ∧ (("huh" : String) ≠ "mse")
    ∧ (("huh" : String) ≠ "corr") ∧ (("weird" : String) ≠ "shortest")
    ∧ (("bogus" : String) ≠ "crop")
    ∧ find_best_alignment_offset (fun _ _ _ _ => 0) (fun _ _ => (0:ℚ))
        ⟨"float32", true, [1]⟩ ⟨"float32", true, [2]⟩ 1 none "huh"
        = .error "Unknown method"
    ∧ _fix [1] [2] (some "weird")
        = .error ("fix_length=" ++ "weird" ++ " not understood")
    ∧ _align [1] [2] 0 "bogus" = ([1], [2]) :=
  ⟨rfl, by decide, by decide, by decide, by decide,
   (claim2_config_error_behavior (fun _ _ _ _ => 0) (fun _ _ => (0:ℚ))
     ⟨"float32", true, [1]⟩ ⟨"float32", true, [2]⟩ 1 none "huh" "bogus" "weird"
     [1] [2] 0).1 rfl rfl (by decide) (by decide),
   (claim2_config_error_behavior (fun _ _ _ _ => 0) (fun _ _ => (0:ℚ))
     ⟨"float32", true, [1]⟩ ⟨"float32", true, [2]⟩ 1 none "huh" "bogus" "weird"
     [1] [2] 0).2.1 (by decide) (by decide),
   (claim2_config_error_behavior (fun _ _ _ _ => 0) (fun _ _ => (0:ℚ))
     ⟨"float32", true, [1]⟩ ⟨"float32", true, [2]⟩ 1 none "huh" "bogus" "weird"
     [1] [2] 0).2.2 (by decide) (by decide)⟩

/-- Claim C8: the public offset search fails when the two buffers do not
share the float32 element type; for the MSE method it additionally fails when
either buffer is not contiguous, while the correlation method succeeds on
float32 inputs regardless of contiguity. -/
theorem claim8_dtype_and_contiguity
    (f : List ℚ → List ℚ → ℤ → ℤ → ℤ) (c : List ℚ → List ℚ → ℚ)
    (A B : NpArray) (M : ℤ) (la : Option ℤ) (method : String) :
    (A.dtype ≠ B.dtype →
      ∃ e, find_best_alignment_offset f c A B M la method = .error e)
    ∧ (method = "mse" → ¬(A.cContiguous = true ∧ B.cContiguous = true) →
      ∃ e, find_best_alignment_offset f c A B M la method = .error e)
    ∧ (method = "corr" → A.dtype = "float32" → B.dtype = "float32" →
      ∃ r, find_best_alignment_offset f c A B M la method = .ok r) := by
  refine ⟨fun hne => ?_, fun hm hc => ?_, fun hm h1 h2 => ?_⟩
  · have hd : ¬(A.dtype = "float32" ∧ B.dtype = "float32") := by
      rintro ⟨ha, hb⟩
      exact hne (ha.trans hb.symm)
    refine ⟨"Arrays must be float32", ?_⟩
    unfold find_best_alignment_offset
    rw [if_neg hd]
  · subst hm
    by_cases hd : A.dtype = "float32" ∧ B.dtype = "float32"
    · refine ⟨"Arrays must be C-contiguous", ?_⟩
      unfold find_best_alignment_offset
      rw [if_pos hd, if_pos rfl, if_neg hc]
    · refine ⟨"Arrays must be float32", ?_⟩
      unfold find_best_alignment_offset
      rw [if_neg hd]
  · subst hm
    refine ⟨find_best_alignment_offset_with_corrcoef c A.data B.data (-M) M none, ?_⟩
    unfold find_best_alignment_offset
    rw [if_pos ⟨h1, h2⟩, if_neg (by decide : ¬("corr" = "mse")), if_pos rfl]

theorem claim8_witness :
    ((⟨"float64", true, [1]⟩ : NpArray).dtype ≠ (⟨"float32", true, [2]⟩ : NpArray).dtype)
    ∧ (∃ e, find_best_alignment_offset (fun _ _ _ _ => 0) (fun _ _ => (0:ℚ))
        ⟨"float64", true, [1]⟩ ⟨"float32", true, [2]⟩ 1 none "mse" = .error e)
    ∧ ¬((⟨"float32", false, [1]⟩ : NpArray).cContiguous = true
        ∧ (⟨"float32", true, [2]⟩ : NpArray).cContiguous = true)
    ∧ (∃ e, find_best_alignment_offset (fun _ _ _ _ => 0) (fun _ _ => (0:ℚ))
        ⟨"float32", false, [1]⟩ ⟨"float32", true, [2]⟩ 1 none "mse" = .error e)
    ∧ (∃ r, find_best_alignment_offset (fun _ _ _ _ => 0) (fun _ _ => (0:ℚ))
        ⟨"float32", false, [1]⟩ ⟨"float32", true, [2]⟩ 1 none "corr" = .ok r) :=
  ⟨by decide,
   (claim8_dtype_and_contiguity (fun _ _ _ _ => 0) (fun _ _ => (0:ℚ))
     ⟨"float64", true, [1]⟩ ⟨"float32", true, [2]⟩ 1 none "mse").1 (by decide),
   by decide,
   (claim8_dtype_and_contiguity (fun _ _ _ _ => 0) (fun _ _ => (0:ℚ))
     ⟨"float32", false, [1]⟩ ⟨"float32", true, [2]⟩ 1 none "mse").2.1 rfl (by decide),
   (claim8_dtype_and_contiguity (fun _ _ _ _ => 0) (fun _ _ => (0:ℚ))
     ⟨"float32", false, [1]⟩ ⟨"float32", true, [2]⟩ 1 none "corr").2.2 rfl rfl rfl⟩

/-- Claim C4: for a non-empty range `[mn, mx)` the correlation search scores
every lag in increasing order and returns the first (lowest) lag achieving
the maximum score: the result is in range, its score is maximal, and every
strictly smaller lag in the range scores strictly less. -/
theorem claim4_corr_first_argmax (c : List ℚ → List ℚ → ℚ) (o d : List ℚ)
    (mn mx : ℤ) (la : Option ℤ) (h : mn < mx) :
    mn ≤ find_best_alignment_offset_with_corrcoef c o d mn mx la
    ∧ find_best_alignment_offset_with_corrcoef c o d mn mx la < mx
    ∧ (∀ t, mn ≤ t → t < mx →
        fast_autocorr c (corrWindow o d la).1 (corrWindow o d la).2 t
          ≤ fast_autocorr c (corrWindow o d la).1 (corrWindow o d la).2
              (find_best_alignment_offset_with_corrcoef c o d mn mx la))
    ∧ (∀ t, mn ≤ t → t < find_best_alignment_offset_with_corrcoef c o d mn mx la →
        fast_autocorr c (corrWindow o d la).1 (corrWindow o d la).2 t
          < fast_autocorr c (corrWindow o d la).1 (corrWindow o d la).2
              (find_best_alignment_offset_with_corrcoef c o d mn mx la)) := by
  unfold find_best_alignment_offset_with_corrcoef
  have hb := scanOffset_mem_range
    (fun lag => fast_autocorr c (corrWindow o d la).1 (corrWindow o d la).2 lag) h
  exact ⟨hb.1, hb.2,
    fun t ht1 ht2 => scanOffset_is_max _ h ht1 ht2,
    fun t ht1 ht2 => scanOffset_first _ h ht1 ht2⟩

theorem claim4_witness :
    ((-2:ℤ) < 2)
    ∧ (-2:ℤ) ≤ find_best_alignment_offset_with_corrcoef (fun _ _ => (0:ℚ))
        [1, 2] [3, 4] (-2) 2 none
    ∧ find_best_alignment_offset_with_corrcoef (fun _ _ => (0:ℚ))
        [1, 2] [3, 4] (-2) 2 none < 2 :=
  ⟨by decide,
   (claim4_corr_first_argmax (fun _ _ => (0:ℚ)) [1, 2] [3, 4] (-2) 2 none (by decide)).1,
   (claim4_corr_first_argmax (fun _ _ => (0:ℚ)) [1, 2] [3, 4] (-2) 2 none (by decide)).2.1⟩

/-- Claim C5: for valid inputs (positive maximum offset, non-empty signals),
any offset the public search returns lies in `[-max_offset_samples,
max_offset_samples)`.  The native MSE routine, whose C source is not part of
the repository, is instantiated with its spec model
`fastFindAlignmentSpec`. -/
theorem claim5_range_containment (c : List ℚ → List ℚ → ℚ) (A B : NpArray)
    (M : ℤ) (la : Option ℤ) (method : String) (r : ℤ) (hM : 0 < M)
    (_hA : A.data ≠ []) (_hB : B.data ≠ [])
    (h : find_best_alignment_offset fastFindAlignmentSpec c A B M la method = .ok r) :
    -M ≤ r ∧ r < M := by
  have hMM : -M < M := by omega
  unfold find_best_alignment_offset at h
  by_cases hd : A.dtype = "float32" ∧ B.dtype = "float32"
  · rw [if_pos hd] at h
    by_cases hm : method = "mse"
    · rw [if_pos hm] at h
      by_cases hc : A.cContiguous = true ∧ B.cContiguous = true
      · rw [if_pos hc] at h
        injection h with hr
        subst hr
        unfold fastFindAlignmentSpec
        exact scanOffset_mem_range _ hMM
      · rw [if_neg hc] at h
        simp at h
    · rw [if_neg hm] at h
      by_cases hc2 : method = "corr"
      · rw [if_pos hc2] at h
        injection h with hr
        subst hr
        unfold find_best_alignment_offset_with_corrcoef
        exact scanOffset_mem_range _ hMM
      · rw [if_neg hc2] at h
        simp at h
  · rw [if_neg hd] at h
    simp at h

theorem claim5_witness :
    ((0:ℤ) < 1) ∧ ([(1:ℚ)] ≠ []) ∧ ([(2:ℚ)] ≠ [])
    ∧ find_best_alignment_offset fastFindAlignmentSpec (fun _ _ => (0:ℚ))
        ⟨"float32", true, [1]⟩ ⟨"float32", true, [2]⟩ 1 none "corr" = .ok (-1)
    ∧ (-(1:ℤ) ≤ -1 ∧ (-1:ℤ) < 1) :=
  ⟨by decide, by decide, by decide, rfl,
   claim5_range_containment (fun _ _ => (0:ℚ)) ⟨"float32", true, [1]⟩
     ⟨"float32", true, [2]⟩ 1 none "corr" (-1) (by decide) (by decide)
     (by decide) rfl⟩

/-- Claim C1 counterexample: in the public search with `method="corr"`, a
supplied `lookahead_samples` (3) smaller than the first signal length (5) is
ignored: the result (0) is the unwindowed correlation search result, while
performing the scoring on the centered sub-window yields -2, a different
offset.  The source (alignment.py line 92-94) does not forward
`lookahead_samples` to `find_best_alignment_offset_with_corrcoef`. -/
theorem claim1_counterexample :
    find_best_alignment_offset (fun _ _ _ _ => 0)
        (fun x _ => if 2 ≤ x.length then (1:ℚ) else 0)
        ⟨"float32", true, [1, 2, 3, 4, 5]⟩ ⟨"float32", true, [1, 2, 3, 4, 5]⟩
        2 (some 3) "corr" = .ok 0
    ∧ find_best_alignment_offset_with_corrcoef
        (fun x _ => if 2 ≤ x.length then (1:ℚ) else 0)
        [1, 2, 3, 4, 5] [1, 2, 3, 4, 5] (-2) 2 none = 0
    ∧ find_best_alignment_offset_with_corrcoef
        (fun x _ => if 2 ≤ x.length then (1:ℚ) else 0)
        [1, 2, 3, 4, 5] [1, 2, 3, 4, 5] (-2) 2 (some 3) = -2
    ∧ (0:ℤ) ≠ -2 :=
  ⟨rfl, by decide, by decide, by decide⟩

/-- Claim C1 amended: the public search with `method="corr"` ignores the
supplied `lookahead_samples` entirely and scores the full signals (it invokes
the correlation search with no lookahead); the centered-window restriction
`[len div 2, len div 2 + lookahead)` is applied only when
`find_best_alignment_offset_with_corrcoef` is called directly with a
lookahead bound smaller than the first signal length. -/
theorem claim1_corr_lookahead_ignored
    (f : List ℚ → List ℚ → ℤ → ℤ → ℤ) (c : List ℚ → List ℚ → ℚ)
    (A B : NpArray) (M L : ℤ)
    (h1 : A.dtype = "float32") (h2 : B.dtype = "float32") :
    find_best_alignment_offset f c A B M (some L) "corr"
      = .ok (find_best_alignment_offset_with_corrcoef c A.data B.data (-M) M none)
    ∧ (∀ (o d : List ℚ), (o.length : ℤ) > L →
        corrWindow o d (some L)
          = ((o.drop (o.length / 2)).take L.toNat,
             (d.drop (o.length / 2)).take L.toNat)) := by
  constructor
  · unfold find_best_alignment_offset
    rw [if_pos ⟨h1, h2⟩, if_neg (by decide : ¬("corr" = "mse")), if_pos rfl]
  · intro o d hod
    simp only [corrWindow]
    rw [if_pos hod]

theorem claim1_witness :
    (("float32" : String) = "float32")
    ∧ find_best_alignment_offset (fun _ _ _ _ => 0) (fun _ _ => (0:ℚ))
        ⟨"float32", true, [1, 2, 3]⟩ ⟨"float32", true, [4, 5, 6]⟩ 1 (some 2) "corr"
      = .ok (find_best_alignment_offset_with_corrcoef (fun _ _ => (0:ℚ))
          [1, 2, 3] [4, 5, 6] (-1) 1 none)
    ∧ ((([1, 2, 3] : List ℚ).length : ℤ) > 2)
    ∧ corrWindow [1, 2, 3] [4, 5, 6] (some 2) = ([2, 3], [5, 6]) :=
  ⟨rfl,
   (claim1_corr_lookahead_ignored (fun _ _ _ _ => 0) (fun _ _ => (0:ℚ))
     ⟨"float32", true, [1, 2, 3]⟩ ⟨"float32", true, [4, 5, 6]⟩ 1 2 rfl rfl).1,
   by decide,
   (claim1_corr_lookahead_ignored (fun _ _ _ _ => 0) (fun _ _ => (0:ℚ))
     ⟨"float32", true, [1, 2, 3]⟩ ⟨"float32", true, [4, 5, 6]⟩ 1 2 rfl rfl).2
     [1, 2, 3] [4, 5, 6] (by decide)⟩

/-- Swapping the two signals and negating the lag gives the same slice pair
in swapped order, so for a symmetric scorer the score is unchanged. -/
theorem fast_autocorr_swap (c : List ℚ → List ℚ → ℚ)
    (hsym : ∀ x y, c x y = c y x) (a b : List ℚ) (t : ℤ) :
    fast_autocorr c b a (-t) = fast_autocorr c a b t := by
  rcases lt_trichotomy t 0 with hlt | rfl | hgt
  · unfold fast_autocorr
    rw [if_neg (show ¬(-t = 0) by omega), if_neg (show ¬(-t < 0) by omega),
      if_neg (show ¬(t = 0) by omega), if_pos hlt]
    exact hsym _ _
  · rw [neg_zero]
    unfold fast_autocorr
    rw [if_pos rfl]
    exact hsym _ _
  · unfold fast_autocorr
    rw [if_neg (show ¬(-t = 0) by omega), if_pos (show -t < 0 by omega),
      if_neg (show ¬(t = 0) by omega), if_neg (show ¬(t < 0) by omega),
      neg_neg]
    exact hsym _ _

/-- Claim C9: with a symmetric scorer, if the score over lags of
`[-M, M]` has a strict unique maximizer `i` in the interior (so no tie-break
or boundary effect is in play), then searching `(a, b)` returns `i` and
searching `(b, a)` returns `-i`: the two results are negatives of each
other. -/
theorem claim9_symmetry (c : List ℚ → List ℚ → ℚ)
    (hsym : ∀ x y, c x y = c y x) (a b : List ℚ) (M i : ℤ)
    (h1 : -M < i) (h2 : i < M)
    (hu : ∀ t ∈ Finset.Icc (-M) M, t ≠ i →
      fast_autocorr c a b t < fast_autocorr c a b i) :
    find_best_alignment_offset_with_corrcoef c a b (-M) M none = i
    ∧ find_best_alignment_offset_with_corrcoef c b a (-M) M none = -i := by
  constructor
  · unfold find_best_alignment_offset_with_corrcoef
    apply scanOffset_eq_of_unique _ (le_of_lt h1) h2
    intro t ht1 ht2 hti
    exact hu t (Finset.mem_Icc.mpr ⟨ht1, le_of_lt ht2⟩) hti
  · unfold find_best_alignment_offset_with_corrcoef
    apply scanOffset_eq_of_unique _ (by omega) (by omega)
    intro t ht1 ht2 hti
    show fast_autocorr c b a t < fast_autocorr c b a (-i)
    have hs1 : fast_autocorr c b a t = fast_autocorr c a b (-t) := by
      have h := fast_autocorr_swap c hsym a b (-t)
      rwa [neg_neg] at h
    have hs2 : fast_autocorr c b a (-i) = fast_autocorr c a b i :=
      fast_autocorr_swap c hsym a b i
    rw [hs1, hs2]
    exact hu (-t) (Finset.mem_Icc.mpr ⟨by omega, by omega⟩) (by omega)

theorem claim9_witness :
    ((-(2:ℤ) < 1) ∧ ((1:ℤ) < 2))
    ∧ find_best_alignment_offset_with_corrcoef (pairScore [1, 5] [8, 12])
        [1, 2, 3, 4, 5, 6] [7, 8, 9, 10, 11, 12] (-2) 2 none = 1
    ∧ find_best_alignment_offset_with_corrcoef (pairScore [1, 5] [8, 12])
        [7, 8, 9, 10, 11, 12] [1, 2, 3, 4, 5, 6] (-2) 2 none = -1 :=
  ⟨⟨by decide, by decide⟩,
   (claim9_symmetry (pairScore [1, 5] [8, 12]) (pairScore_symm [1, 5] [8, 12])
     [1, 2, 3, 4, 5, 6] [7, 8, 9, 10, 11, 12] 2 1 (by decide) (by decide)
     (by decide)).1,
   (claim9_symmetry (pairScore [1, 5] [8, 12]) (pairScore_symm [1, 5] [8, 12])
     [1, 2, 3, 4, 5, 6] [7, 8, 9, 10, 11, 12] 2 1 (by decide) (by decide)
     (by decide)).2⟩

/-- Claim C10: `align` always performs its offset search with the MSE method
(the default of `find_best_alignment_offset`): it fails whenever either input
is not a contiguous float32 buffer (even though the correlation method would
not need contiguity), on valid inputs its offset is exactly the value
returned by the external native scoring routine (with `max_lookahead`
appearing only as that routine's argument), and its result never depends on
the correlation scorer. -/
theorem claim10_align_always_mse
    (f : List ℚ → List ℚ → ℤ → ℤ → ℤ) (c c2 : List ℚ → List ℚ → ℚ)
    (A B : NpArray) (M : ℤ) (la : Option ℤ) (mode : String)
    (fl : Option String) :
    (¬(A.cContiguous = true ∧ B.cContiguous = true) →
      ∃ e, align f c A B M la mode fl = .error e)
    ∧ (A.dtype = "float32" → B.dtype = "float32" →
       A.cContiguous = true → B.cContiguous = true →
        align f c A B M la mode fl
          = _fix
              (applyAlignOffset A.data B.data
                (f B.data A.data M
                  (la.getD ((max A.data.length B.data.length : ℕ) : ℤ))) mode).1
              (applyAlignOffset A.data B.data
                (f B.data A.data M
                  (la.getD ((max A.data.length B.data.length : ℕ) : ℤ))) mode).2
              fl)
    ∧ align f c A B M la mode fl = align f c2 A B M la mode fl := by
  refine ⟨fun hc => ?_, fun h1 h2 h3 h4 => ?_, ?_⟩
  · by_cases hd : A.dtype = "float32" ∧ B.dtype = "float32"
    · refine ⟨"Arrays must be C-contiguous", ?_⟩
      unfold align find_best_alignment_offset
      rw [if_pos hd, if_pos rfl, if_neg hc]
      rfl
    · refine ⟨"Arrays must be float32", ?_⟩
      unfold align find_best_alignment_offset
      rw [if_neg hd]
      rfl
  · unfold align find_best_alignment_offset
    rw [if_pos ⟨h1, h2⟩, if_pos rfl, if_pos ⟨h3, h4⟩]
    rfl
  · rfl

theorem claim10_witness :
    ((⟨"float32", true, [1, 2]⟩ : NpArray).dtype = "float32")
    ∧ ((⟨"float32", true, [1, 2]⟩ : NpArray).cContiguous = true)
    ∧ align (fun _ _ _ _ => 1) (fun _ _ => (0:ℚ)) ⟨"float32", true, [1, 2]⟩
        ⟨"float32", true, [3, 4]⟩ 1 none "crop" none = .ok ([2], [3, 4])
    ∧ align (fun _ _ _ _ => 1) (fun _ _ => (0:ℚ)) ⟨"float32", true, [1, 2]⟩
        ⟨"float32", true, [3, 4]⟩ 1 none "crop" none
      = align (fun _ _ _ _ => 1) (fun _ _ => (37:ℚ)) ⟨"float32", true, [1, 2]⟩
          ⟨"float32", true, [3, 4]⟩ 1 none "crop" none :=
  ⟨rfl, rfl,
   (claim10_align_always_mse (fun _ _ _ _ => 1) (fun _ _ => (0:ℚ))
     (fun _ _ => (37:ℚ)) ⟨"float32", true, [1, 2]⟩ ⟨"float32", true, [3, 4]⟩
     1 none "crop" none).2.1 rfl rfl rfl rfl,
   (claim10_align_always_mse (fun _ _ _ _ => 1) (fun _ _ => (0:ℚ))
     (fun _ _ => (37:ℚ)) ⟨"float32", true, [1, 2]⟩ ⟨"float32", true, [3, 4]⟩
     1 none "crop" none).2.2⟩

end FastAlignAudio
